import Mathlib

/-!
Verification of `backend_stub.py` from the `3d-product-site` repository.

The file under inspection declares a FastAPI application with a single
POST `/generate` route.  The route deserializes the JSON request body into a
pydantic model `GenerateRequest` (two required string fields `wordA` and
`wordB`; optional `font : str = "Sans"`, `padding : float = 2.5`,
`fillet : float = 0.5`) and the handler `generate` returns a dictionary with
a fixed `"message"` entry and a `"received"` entry echoing
`req.model_dump()`.

Embedding notes:
* JSON numbers (integers and floats alike) are modelled as exact rationals.
  The handler performs no arithmetic on them — numbers are only stored and
  echoed back — so rationals are a faithful image of the numeric payloads.
* A JSON object is an association list of fields in textual order.  Python's
  `json` layer builds a `dict`, in which a repeated key keeps its last
  binding, so field lookup below takes the last occurrence.
* Deserialization follows pydantic validation of the declared model: a
  missing required field or a field value of the wrong JSON type raises a
  validation error; unknown fields are ignored (the model sets no strict
  config); omitted optional fields take the declared defaults.
* The module-level state of the Python file is the `app` object, i.e. its
  route table.  `ServerState` and `dispatch` model one request served
  against that state, returning the possibly updated state explicitly.
-/

namespace BackendStub

/-- JSON values as delivered to the deserialization layer. -/
inductive JsonValue where
  | jnull : JsonValue
  | jbool : Bool → JsonValue
  | jnum : Rat → JsonValue
  | jstr : String → JsonValue
  | jarr : List JsonValue → JsonValue
  | jobj : List (String × JsonValue) → JsonValue

/-- Field lookup in a JSON object, as Python's `dict` built from parsed JSON
sees it: the last binding of a repeated key wins. -/
def getKey (fields : List (String × JsonValue)) (k : String) : Option JsonValue :=
  fields.reverse.lookup k

/-- Lookup of a field of an arbitrary JSON value: only objects have fields. -/
def getJsonField (v : JsonValue) (k : String) : Option JsonValue :=
  match v with
  | .jobj fields => getKey fields k
  | _ => none

/-- The keys of a JSON object, in order; empty for non-objects. -/
def jsonKeys (v : JsonValue) : List String :=
  match v with
  | .jobj fields => fields.map (fun p => p.1)
  | _ => []

/-- The pydantic model of `backend_stub.py`:

```python
class GenerateRequest(BaseModel):
    wordA: str
    wordB: str
    font: str = "Sans"
    padding: float = 2.5
    fillet: float = 0.5
```
-/
structure GenerateRequest where
  wordA : String
  wordB : String
  font : String := "Sans"
  padding : Rat := 2.5
  fillet : Rat := 0.5
  deriving DecidableEq

/-- The sole failure kind of the stub: the validation error raised by the
deserialization layer (pydantic, surfaced by FastAPI). -/
inductive DeserializationError where
  | SchemaValidationError : DeserializationError
  deriving DecidableEq

/-- Pydantic validation of a `str` field: the value must be a JSON string. -/
def validateStr (v : JsonValue) : Except DeserializationError String :=
  match v with
  | .jstr s => .ok s
  | _ => .error .SchemaValidationError

/-- Pydantic validation of a `float` field: the value must be a JSON number
(an integer literal is accepted and read as a float). -/
def validateFloat (v : JsonValue) : Except DeserializationError Rat :=
  match v with
  | .jnum q => .ok q
  | _ => .error .SchemaValidationError

/-- A required model field: absent means a validation error. -/
def requiredField (fields : List (String × JsonValue)) (k : String)
    (validate : JsonValue → Except DeserializationError α) :
    Except DeserializationError α :=
  match getKey fields k with
  | some v => validate v
  | none => .error .SchemaValidationError

/-- An optional model field with a declared default: absent means the
default; present means the value must validate. -/
def optionalField (fields : List (String × JsonValue)) (k : String)
    (validate : JsonValue → Except DeserializationError α) (dflt : α) :
    Except DeserializationError α :=
  match getKey fields k with
  | some v => validate v
  | none => .ok dflt

/-- Deserialization of the request body into `GenerateRequest`, field by
field in declaration order, exactly as pydantic validates the model: fields
not named in the model are ignored, and a non-object body is rejected. -/
def GenerateRequest.fromJson (body : JsonValue) :
    Except DeserializationError GenerateRequest :=
  match body with
  | .jobj fields => do
      let wordA ← requiredField fields "wordA" validateStr
      let wordB ← requiredField fields "wordB" validateStr
      let font ← optionalField fields "font" validateStr "Sans"
      let padding ← optionalField fields "padding" validateFloat 2.5
      let fillet ← optionalField fields "fillet" validateFloat 0.5
      .ok { wordA := wordA, wordB := wordB, font := font,
            padding := padding, fillet := fillet }
  | _ => .error .SchemaValidationError

/-- `req.model_dump()`: the model's fields as a JSON object, in declaration
order. -/
def GenerateRequest.model_dump (r : GenerateRequest) : JsonValue :=
  .jobj [("wordA", .jstr r.wordA), ("wordB", .jstr r.wordB),
         ("font", .jstr r.font), ("padding", .jnum r.padding),
         ("fillet", .jnum r.fillet)]

/-- The handler body of `backend_stub.py`:

```python
def generate(req: GenerateRequest):
    return \x7b
        "message": "Not implemented yet",
        "received": req.model_dump(),
    \x7d
```
-/
def generate (req : GenerateRequest) : JsonValue :=
  .jobj [("message", .jstr "Not implemented yet"),
         ("received", req.model_dump)]

/-- The route as served: deserialize the body, and only on success run the
handler.  A validation failure propagates untouched; the handler itself has
no failure path. -/
def handleGenerate (body : JsonValue) : Except DeserializationError JsonValue :=
  (GenerateRequest.fromJson body).map generate

/-- One entry of the FastAPI routing table. -/
structure Route where
  method : String
  routePath : String
  handler : JsonValue → Except DeserializationError JsonValue

/-- The `app` object: its only registration is `@app.post("/generate")`. -/
def app : List Route :=
  [{ method := "POST", routePath := "/generate", handler := handleGenerate }]

/-- The whole module-level state of the Python file: the route table of
`app`.  The stub has no other globals, counters or caches. -/
structure ServerState where
  routes : List Route

/-- The state at process start, after the single route registration. -/
def initialState : ServerState := ⟨app⟩

/-- Serving one request against the current server state: find the route
for the method and target, run its handler on the body, and return the
response together with the state left behind for the next request.  `none`
as first component means no route matched. -/
def dispatch (st : ServerState) (method target : String) (body : JsonValue) :
    Option (Except DeserializationError JsonValue) × ServerState :=
  match st.routes.find? (fun r => r.method == method && r.routePath == target) with
  | some r => (some (r.handler body), st)
  | none => (none, st)

mutual

/-- Response bytes: a plain JSON serializer, used to state byte-identity of
responses.  Recursion through the nested list positions is split into a
mutual group, with an explicit comma fold. -/
def serializeJson : JsonValue → String
  | .jnull => "null"
  | .jbool b => cond b "true" "false"
  | .jnum q => toString q
  | .jstr s => "\"" ++ s ++ "\""
  | .jarr xs => "[" ++ serializeArr xs ++ "]"
  | .jobj fields => "\x7b" ++ serializeObj fields ++ "\x7d"

def serializeArr : List JsonValue → String
  | [] => ""
  | [x] => serializeJson x
  | x :: y :: xs => serializeJson x ++ "," ++ serializeArr (y :: xs)

def serializeObj : List (String × JsonValue) → String
  | [] => ""
  | [(k, v)] => "\"" ++ k ++ "\":" ++ serializeJson v
  | (k, v) :: p :: fields =>
      "\"" ++ k ++ "\":" ++ serializeJson v ++ "," ++ serializeObj (p :: fields)

end

/-- A `str` field is present with a non-string value. -/
def wrongStrField (fields : List (String × JsonValue)) (k : String) : Bool :=
  match getKey fields k with
  | some (.jstr _) => false
  | some _ => true
  | none => false

/-- A `float` field is present with a non-numeric value. -/
def wrongNumField (fields : List (String × JsonValue)) (k : String) : Bool :=
  match getKey fields k with
  | some (.jnum _) => false
  | some _ => true
  | none => false

/-- Both required fields of the model are present. -/
def requiredPresent (fields : List (String × JsonValue)) : Bool :=
  (getKey fields "wordA").isSome && (getKey fields "wordB").isSome

/-- Some declared field of the model is present but of the wrong JSON type. -/
def presentWrongTyped (fields : List (String × JsonValue)) : Bool :=
  wrongStrField fields "wordA" || wrongStrField fields "wordB" ||
    wrongStrField fields "font" || wrongNumField fields "padding" ||
    wrongNumField fields "fillet"

/-- Binding a failed deserialization step short-circuits to the error. -/
theorem bind_error {α β : Type} (e : DeserializationError)
    (f : α → Except DeserializationError β) :
    (Except.error e : Except DeserializationError α) >>= f = .error e := rfl

/-- Binding a successful deserialization step continues with its value. -/
theorem bind_ok {α β : Type} (a : α) (f : α → Except DeserializationError β) :
    (Except.ok a : Except DeserializationError α) >>= f = f a := rfl

/-- A required `str` field fails validation exactly when it is absent or
present with a non-string value. -/
theorem requiredField_str_error_iff (fields : List (String × JsonValue)) (k : String) :
    requiredField fields k validateStr = .error .SchemaValidationError ↔
      ((getKey fields k).isSome = false ∨ wrongStrField fields k = true) := by
  cases h : getKey fields k with
  | none => simp [requiredField, wrongStrField, h]
  | some v => cases v <;> simp [requiredField, wrongStrField, h, validateStr]

/-- A required `str` field validates to `s` exactly when it is present with
the string value `s`. -/
theorem requiredField_str_ok_iff (fields : List (String × JsonValue)) (k : String)
    (s : String) :
    requiredField fields k validateStr = .ok s ↔ getKey fields k = some (.jstr s) := by
  cases h : getKey fields k with
  | none => simp [requiredField, h]
  | some v => cases v <;> simp [requiredField, h, validateStr]

/-- An optional `str` field fails validation exactly when it is present with
a non-string value. -/
theorem optionalField_str_error_iff (fields : List (String × JsonValue)) (k : String)
    (dflt : String) :
    optionalField fields k validateStr dflt = .error .SchemaValidationError ↔
      wrongStrField fields k = true := by
  cases h : getKey fields k with
  | none => simp [optionalField, wrongStrField, h]
  | some v => cases v <;> simp [optionalField, wrongStrField, h, validateStr]

/-- An optional `float` field fails validation exactly when it is present
with a non-numeric value. -/
theorem optionalField_num_error_iff (fields : List (String × JsonValue)) (k : String)
    (dflt : Rat) :
    optionalField fields k validateFloat dflt = .error .SchemaValidationError ↔
      wrongNumField fields k = true := by
  cases h : getKey fields k with
  | none => simp [optionalField, wrongNumField, h]
  | some v => cases v <;> simp [optionalField, wrongNumField, h, validateFloat]

/-- If an optional `str` field validates, it is not present-and-wrong-typed. -/
theorem optionalField_str_ok_wrong (fields : List (String × JsonValue)) (k : String)
    (dflt s : String) (h : optionalField fields k validateStr dflt = .ok s) :
    wrongStrField fields k = false := by
  cases h2 : getKey fields k with
  | none => simp [wrongStrField, h2]
  | some v => cases v <;> simp_all [optionalField, wrongStrField, h2, validateStr]

/-- If an optional `float` field validates, it is not
present-and-wrong-typed. -/
theorem optionalField_num_ok_wrong (fields : List (String × JsonValue)) (k : String)
    (dflt q : Rat) (h : optionalField fields k validateFloat dflt = .ok q) :
    wrongNumField fields k = false := by
  cases h2 : getKey fields k with
  | none => simp [wrongNumField, h2]
  | some v => cases v <;> simp_all [optionalField, wrongNumField, h2, validateFloat]

/-- The exact failure condition of deserialization on a JSON object: it
errors precisely when a required field is missing or a declared field is
present with the wrong JSON type. -/
theorem fromJson_jobj_error_iff (fields : List (String × JsonValue)) :
    GenerateRequest.fromJson (.jobj fields) = .error .SchemaValidationError ↔
      (requiredPresent fields = false ∨ presentWrongTyped fields = true) := by
  simp only [GenerateRequest.fromJson]
  cases hA : requiredField fields "wordA" validateStr with
  | error e =>
    cases e
    simp only [hA, bind_error]
    apply iff_of_true trivial
    rcases (requiredField_str_error_iff fields "wordA").mp hA with hc | hc
    · exact Or.inl (by simp [requiredPresent, hc])
    · exact Or.inr (by simp [presentWrongTyped, hc])
  | ok a =>
    simp only [hA, bind_ok]
    cases hB : requiredField fields "wordB" validateStr with
    | error e =>
      cases e
      simp only [hB, bind_error]
      apply iff_of_true trivial
      rcases (requiredField_str_error_iff fields "wordB").mp hB with hc | hc
      · exact Or.inl (by simp [requiredPresent, hc])
      · exact Or.inr (by simp [presentWrongTyped, hc])
    | ok b =>
      simp only [hB, bind_ok]
      cases hF : optionalField fields "font" validateStr "Sans" with
      | error e =>
        cases e
        simp only [hF, bind_error]
        apply iff_of_true trivial
        exact Or.inr (by
          simp [presentWrongTyped, (optionalField_str_error_iff fields "font" "Sans").mp hF])
      | ok fo =>
        simp only [hF, bind_ok]
        cases hP : optionalField fields "padding" validateFloat 2.5 with
        | error e =>
          cases e
          simp only [hP, bind_error]
          apply iff_of_true trivial
          exact Or.inr (by
            simp [presentWrongTyped,
              (optionalField_num_error_iff fields "padding" 2.5).mp hP])
        | ok p =>
          simp only [hP, bind_ok]
          cases hFi : optionalField fields "fillet" validateFloat 0.5 with
          | error e =>
            cases e
            simp only [hFi, bind_error]
            apply iff_of_true trivial
            exact Or.inr (by
              simp [presentWrongTyped,
                (optionalField_num_error_iff fields "fillet" 0.5).mp hFi])
          | ok fi =>
            simp only [hFi, bind_ok]
            apply iff_of_false (by simp)
            have kA := (requiredField_str_ok_iff fields "wordA" a).mp hA
            have kB := (requiredField_str_ok_iff fields "wordB" b).mp hB
            have wF := optionalField_str_ok_wrong fields "font" "Sans" fo hF
            have wP := optionalField_num_ok_wrong fields "padding" 2.5 p hP
            have wFi := optionalField_num_ok_wrong fields "fillet" 0.5 fi hFi
            have wA : wrongStrField fields "wordA" = false := by
              simp [wrongStrField, kA]
            have wB : wrongStrField fields "wordB" = false := by
              simp [wrongStrField, kB]
            simp [requiredPresent, presentWrongTyped, kA, kB, wA, wB, wF, wP, wFi]


/-- Claim C1: for every request body that deserializes successfully (so the
served response exists), the response returned by the `generate` handler has
a "message" field equal to the literal string "Not implemented yet". -/
theorem generate_message_not_implemented (body resp : JsonValue)
    (h : handleGenerate body = .ok resp) :
    getJsonField resp "message" = some (.jstr "Not implemented yet") := by
  cases hf : GenerateRequest.fromJson body with
  | error e => simp [handleGenerate, hf, Except.map] at h
  | ok r =>
    simp [handleGenerate, hf, Except.map] at h
    subst h
    rfl

/-- Witness for C1 at a concrete successfully-deserialized request. -/
theorem generate_message_not_implemented_witness :
    getJsonField (generate ⟨"x", "y", "Sans", 2.5, 0.5⟩) "message" =
      some (.jstr "Not implemented yet") :=
  generate_message_not_implemented (.jobj [("wordA", .jstr "x"), ("wordB", .jstr "y")])
    (generate ⟨"x", "y", "Sans", 2.5, 0.5⟩) rfl

/-- Claim C2: the handler's response carries a "received" object equal to
the fully-populated request; omitted optional fields take the defaults
font = "Sans", padding = 2.5, fillet = 0.5; the two concrete examples of the
spec evaluate exactly as stated. -/
theorem response_echoes_request :
    (∀ (body : JsonValue) (r : GenerateRequest),
        GenerateRequest.fromJson body = .ok r →
        generate r = .jobj [("message", .jstr "Not implemented yet"),
          ("received", r.model_dump)]) ∧
    (∀ a b : String,
        GenerateRequest.fromJson (.jobj [("wordA", .jstr a), ("wordB", .jstr b)]) =
          .ok ⟨a, b, "Sans", 2.5, 0.5⟩) ∧
    GenerateRequest.model_dump ⟨"A", "B", "Sans", 2.5, 0.5⟩ =
      .jobj [("wordA", .jstr "A"), ("wordB", .jstr "B"), ("font", .jstr "Sans"),
        ("padding", .jnum 2.5), ("fillet", .jnum 0.5)] ∧
    handleGenerate (.jobj [("wordA", .jstr "Hello"), ("wordB", .jstr "World"),
        ("font", .jstr "Serif"), ("padding", .jnum 1.0), ("fillet", .jnum 0.25)]) =
      .ok (.jobj [("message", .jstr "Not implemented yet"),
        ("received", .jobj [("wordA", .jstr "Hello"), ("wordB", .jstr "World"),
          ("font", .jstr "Serif"), ("padding", .jnum 1.0), ("fillet", .jnum 0.25)])]) :=
  ⟨fun _ _ _ => rfl, fun _ _ => rfl, rfl, rfl⟩

/-- Witness for C2 at a concrete successfully-deserialized request. -/
theorem response_echoes_request_witness :
    generate ⟨"A", "B", "Sans", 2.5, 0.5⟩ =
      .jobj [("message", .jstr "Not implemented yet"),
        ("received", GenerateRequest.model_dump ⟨"A", "B", "Sans", 2.5, 0.5⟩)] :=
  response_echoes_request.1 (.jobj [("wordA", .jstr "A"), ("wordB", .jstr "B")])
    ⟨"A", "B", "Sans", 2.5, 0.5⟩ rfl

/-- Claim C3: an input object missing a required field fails deserialization
with the schema-validation error, so the handler never runs and no
acknowledgment response is produced. -/
theorem missing_required_field_fails (fields : List (String × JsonValue))
    (h : getKey fields "wordA" = none ∨ getKey fields "wordB" = none) :
    GenerateRequest.fromJson (.jobj fields) = .error .SchemaValidationError ∧
      handleGenerate (.jobj fields) = .error .SchemaValidationError ∧
      ∀ v, handleGenerate (.jobj fields) ≠ .ok v := by
  have hfail : GenerateRequest.fromJson (.jobj fields) = .error .SchemaValidationError := by
    rcases h with h | h
    · have hrA : requiredField fields "wordA" validateStr = .error .SchemaValidationError := by
        simp [requiredField, h]
      simp [GenerateRequest.fromJson, hrA, bind_error]
    · cases hA : requiredField fields "wordA" validateStr with
      | error e => cases e; simp [GenerateRequest.fromJson, hA, bind_error]
      | ok a =>
        have hrB : requiredField fields "wordB" validateStr = .error .SchemaValidationError := by
          simp [requiredField, h]
        simp [GenerateRequest.fromJson, hA, bind_ok, hrB, bind_error]
  refine ⟨hfail, by simp [handleGenerate, hfail, Except.map], ?_⟩
  intro v
  simp [handleGenerate, hfail, Except.map]

/-- Witness for C3: the object with only "wordA" is missing "wordB". -/
theorem missing_required_field_fails_witness :
    GenerateRequest.fromJson (.jobj [("wordA", .jstr "A")]) = .error .SchemaValidationError ∧
      handleGenerate (.jobj [("wordA", .jstr "A")]) = .error .SchemaValidationError ∧
      ∀ v, handleGenerate (.jobj [("wordA", .jstr "A")]) ≠ .ok v :=
  missing_required_field_fails [("wordA", .jstr "A")] (Or.inr rfl)

/-- Claim C4, counterexample to the claim as stated: the object holding only
"wordB" has no schema field present with a wrong type, yet deserialization
fails (the required "wordA" is absent), so "every other input succeeds" is
false without the required-fields proviso. -/
theorem wrong_type_dichotomy_counterexample :
    presentWrongTyped [("wordB", JsonValue.jstr "B")] = false ∧
      GenerateRequest.fromJson (.jobj [("wordB", .jstr "B")]) =
        .error .SchemaValidationError :=
  ⟨rfl, rfl⟩

/-- Claim C4 as amended: a schema field present with the wrong JSON type
makes deserialization fail with a SchemaValidationError; the validation
error is the sole failure kind; and every input object with both required
fields present and no wrong-typed schema field deserializes successfully. -/
theorem wrong_type_dichotomy (fields : List (String × JsonValue)) :
    (presentWrongTyped fields = true →
      GenerateRequest.fromJson (.jobj fields) = .error .SchemaValidationError) ∧
    (∀ e, GenerateRequest.fromJson (.jobj fields) = .error e →
      e = .SchemaValidationError) ∧
    (requiredPresent fields = true → presentWrongTyped fields = false →
      ∃ r, GenerateRequest.fromJson (.jobj fields) = .ok r) := by
  refine ⟨fun hw => (fromJson_jobj_error_iff fields).mpr (Or.inr hw),
    fun e _ => by cases e; rfl, fun hreq hw => ?_⟩
  cases hf : GenerateRequest.fromJson (.jobj fields) with
  | error e =>
    cases e
    rcases (fromJson_jobj_error_iff fields).mp hf with hc | hc
    · rw [hreq] at hc; exact absurd hc (by simp)
    · rw [hw] at hc; exact absurd hc (by simp)
  | ok r => exact ⟨r, rfl⟩

/-- Witness for C4 at concrete inputs: a numeric "wordA" is rejected, and a
well-typed object with both required fields succeeds. -/
theorem wrong_type_dichotomy_witness :
    GenerateRequest.fromJson (.jobj [("wordA", .jnum 3), ("wordB", .jstr "B")]) =
        .error .SchemaValidationError ∧
      ∃ r, GenerateRequest.fromJson (.jobj [("wordA", .jstr "A"), ("wordB", .jstr "B")]) =
        .ok r :=
  ⟨(wrong_type_dichotomy [("wordA", .jnum 3), ("wordB", .jstr "B")]).1 rfl,
    (wrong_type_dichotomy [("wordA", .jstr "A"), ("wordB", .jstr "B")]).2.2 rfl rfl⟩

/-- Claim C5: once deserialization succeeds the handler always returns its
acknowledgment — there is no failure path inside the handler itself, and an
error result of the served route can only come from deserialization. -/
theorem handler_never_fails :
    (∀ (body : JsonValue) (r : GenerateRequest),
        GenerateRequest.fromJson body = .ok r →
        handleGenerate body = .ok (generate r)) ∧
    (∀ (body : JsonValue) (e : DeserializationError),
        handleGenerate body = .error e →
        GenerateRequest.fromJson body = .error e) := by
  constructor
  · intro body r h
    simp [handleGenerate, h, Except.map]
  · intro body e h
    cases hf : GenerateRequest.fromJson body with
    | error e2 => cases e; cases e2; rfl
    | ok r => simp [handleGenerate, hf, Except.map] at h

/-- Witness for C5 at a concrete successfully-deserialized request. -/
theorem handler_never_fails_witness :
    handleGenerate (.jobj [("wordA", .jstr "w"), ("wordB", .jstr "v")]) =
      .ok (generate ⟨"w", "v", "Sans", 2.5, 0.5⟩) :=
  handler_never_fails.1 (.jobj [("wordA", .jstr "w"), ("wordB", .jstr "v")])
    ⟨"w", "v", "Sans", 2.5, 0.5⟩ rfl


/-- Claim C6: serving the same request twice against the state left by the
first call yields the same result, byte for byte once serialized — the
handler is deterministic and no hidden state or counter affects either
run. -/
theorem handler_idempotent (st : ServerState) (method target : String)
    (body : JsonValue) :
    (dispatch (dispatch st method target body).2 method target body).1 =
        (dispatch st method target body).1 ∧
      Option.map (Except.map serializeJson)
          (dispatch (dispatch st method target body).2 method target body).1 =
        Option.map (Except.map serializeJson) (dispatch st method target body).1 := by
  have hst : (dispatch st method target body).2 = st := by
    cases hfind : st.routes.find? (fun r => r.method == method && r.routePath == target) <;>
      simp [dispatch, hfind]
  rw [hst]
  exact ⟨rfl, rfl⟩

/-- Claim C7: two input objects that agree on the five schema fields
deserialize identically and receive identical responses, whatever unknown
extra fields either of them carries. -/
theorem extra_fields_ignored (f1 f2 : List (String × JsonValue))
    (hA : getKey f1 "wordA" = getKey f2 "wordA")
    (hB : getKey f1 "wordB" = getKey f2 "wordB")
    (hF : getKey f1 "font" = getKey f2 "font")
    (hP : getKey f1 "padding" = getKey f2 "padding")
    (hFi : getKey f1 "fillet" = getKey f2 "fillet") :
    GenerateRequest.fromJson (.jobj f1) = GenerateRequest.fromJson (.jobj f2) ∧
      handleGenerate (.jobj f1) = handleGenerate (.jobj f2) := by
  have hdeser : GenerateRequest.fromJson (.jobj f1) = GenerateRequest.fromJson (.jobj f2) := by
    simp only [GenerateRequest.fromJson, requiredField, optionalField, hA, hB, hF, hP, hFi]
  exact ⟨hdeser, by simp [handleGenerate, hdeser]⟩

/-- Witness for C7: an extra "units" field and an extra "extra" field do not
change the outcome. -/
theorem extra_fields_ignored_witness :
    GenerateRequest.fromJson (.jobj [("wordA", .jstr "A"), ("wordB", .jstr "B")]) =
        GenerateRequest.fromJson (.jobj [("wordA", .jstr "A"), ("wordB", .jstr "B"),
          ("units", .jstr "mm"), ("extra", .jnum 7)]) ∧
      handleGenerate (.jobj [("wordA", .jstr "A"), ("wordB", .jstr "B")]) =
        handleGenerate (.jobj [("wordA", .jstr "A"), ("wordB", .jstr "B"),
          ("units", .jstr "mm"), ("extra", .jnum 7)]) :=
  extra_fields_ignored [("wordA", .jstr "A"), ("wordB", .jstr "B")]
    [("wordA", .jstr "A"), ("wordB", .jstr "B"), ("units", .jstr "mm"), ("extra", .jnum 7)]
    rfl rfl rfl rfl rfl

/-- Claim C8: serving a request leaves the whole server state unchanged —
the handler mutates nothing outside its own input and return value. -/
theorem handler_no_side_effects (st : ServerState) (method target : String)
    (body : JsonValue) :
    (dispatch st method target body).2 = st := by
  cases hfind : st.routes.find? (fun r => r.method == method && r.routePath == target) <;>
    simp [dispatch, hfind]

/-- Claim C9: no invariant beyond the field types is enforced — any strings
(empty ones included) and any rationals (negative, zero or huge) deserialize
successfully and are echoed back unchanged in the acknowledgment. -/
theorem no_invariants_beyond_type (a b fo : String) (p fi : Rat) :
    GenerateRequest.fromJson (.jobj [("wordA", .jstr a), ("wordB", .jstr b),
        ("font", .jstr fo), ("padding", .jnum p), ("fillet", .jnum fi)]) =
      .ok ⟨a, b, fo, p, fi⟩ ∧
    handleGenerate (.jobj [("wordA", .jstr a), ("wordB", .jstr b),
        ("font", .jstr fo), ("padding", .jnum p), ("fillet", .jnum fi)]) =
      .ok (.jobj [("message", .jstr "Not implemented yet"),
        ("received", .jobj [("wordA", .jstr a), ("wordB", .jstr b),
          ("font", .jstr fo), ("padding", .jnum p), ("fillet", .jnum fi)])]) :=
  ⟨rfl, rfl⟩

/-- Claim C10: the "received" object of the response carries exactly the
five schema keys, in declaration order, for every successfully deserialized
request. -/
theorem received_has_exactly_schema_keys (body : JsonValue) (r : GenerateRequest)
    (h : GenerateRequest.fromJson body = .ok r) :
    getJsonField (generate r) "received" = some r.model_dump ∧
      jsonKeys r.model_dump = ["wordA", "wordB", "font", "padding", "fillet"] :=
  ⟨rfl, rfl⟩

/-- Witness for C10 at a concrete request carrying an extra field. -/
theorem received_has_exactly_schema_keys_witness :
    getJsonField (generate ⟨"A", "B", "Sans", 2.5, 0.5⟩) "received" =
        some (GenerateRequest.model_dump ⟨"A", "B", "Sans", 2.5, 0.5⟩) ∧
      jsonKeys (GenerateRequest.model_dump ⟨"A", "B", "Sans", 2.5, 0.5⟩) =
        ["wordA", "wordB", "font", "padding", "fillet"] :=
  received_has_exactly_schema_keys
    (.jobj [("wordA", .jstr "A"), ("wordB", .jstr "B"), ("note", .jnull)])
    ⟨"A", "B", "Sans", 2.5, 0.5⟩ rfl

end BackendStub
